import Mathlib

/-!
Verification of the query-to-answer pipeline of the rag-fin-proj repository.

Each Python function under verification is shallowly embedded as an executable
Lean definition.  External effects (provider chat calls, the vector index, the
wall clock) are passed in as explicit parameters, so a Python execution
corresponds to one choice of those parameters.  Python `float` money amounts are
modelled as exact rationals, Python `int` as `Int`/`Nat`, and Python dynamic
values decoded from JSON as the inductive type `JVal` below.  Python exceptions
are modelled with `Except`: a raised exception is an `Except.error` carrying
the exception class (`PyExc`).
-/

/-- The exception classes that can flow through the code under verification.
`json.loads` raises `jsonDecodeError`; calling `.get` on a non-dict or
`.upper` on a non-string raises `attributeError`; iterating a non-iterable
raises `typeError`.  `keyError` is listed because `QueryParser.parse` names it
in its `except` clause. -/
inductive PyExc where
  | jsonDecodeError
  | keyError
  | typeError
  | attributeError
deriving DecidableEq, Repr

/-- A Python value produced by `json.loads`: JSON null, booleans, numbers,
strings, arrays (Python lists) and objects (Python dicts).  Numbers are
restricted to integers; no claim involves fractional JSON literals.
`obj` models the decoded dict; `json.loads` collapses duplicate keys, so the
key lists used in theorems are duplicate-free and lookup takes the first
match. -/
inductive JVal where
  | null
  | bool (b : Bool)
  | num (n : Int)
  | str (s : String)
  | arr (elems : List JVal)
  | obj (fields : List (String × JVal))

/-- First-match association-list lookup, modelling Python dict access. -/
def lookupStr {β : Type} (kvs : List (String × β)) (key : String) : Option β :=
  match kvs with
  | [] => none
  | (k, v) :: rest => if k == key then some v else lookupStr rest key

/-- Python truthiness (`if x:`) on decoded JSON values. -/
def pyTruthy : JVal → Bool
  | .null => false
  | .bool b => b
  | .num n => n != 0
  | .str s => !s.isEmpty
  | .arr xs => !xs.isEmpty
  | .obj kvs => !kvs.isEmpty

/-- Python `str.upper()` restricted to ASCII, which is all the code compares. -/
def pyUpper (s : String) : String :=
  String.mk (s.toList.map Char.toUpper)

/-- Python `str.lower()` restricted to ASCII. -/
def pyLower (s : String) : String :=
  String.mk (s.toList.map Char.toLower)

/-- The whitespace set stripped by Python `str.strip()` (ASCII part). -/
def isPySpace (c : Char) : Bool :=
  c == ' ' || c == '\t' || c == '\n' || c == '\r' ||
    c == Char.ofNat 11 || c == Char.ofNat 12

/-- Python `str.strip()`: drop leading and trailing whitespace. -/
def pyStrip (s : String) : String :=
  String.mk (((s.toList.dropWhile isPySpace).reverse.dropWhile isPySpace).reverse)

/-- Splitting a character list on a separator character; the result always
has at least one (possibly empty) piece. -/
def splitCharAux (sep : Char) : List Char → List (List Char)
  | [] => [[]]
  | c :: cs =>
      let rest := splitCharAux sep cs
      if c == sep then [] :: rest
      else
        match rest with
        | r :: rs => (c :: r) :: rs
        | [] => [[c]]

/-- Python `s.split(sep)` for a one-character separator: `"".split(",")` is
`[""]` and empty pieces are kept. -/
def pySplit (s : String) (sep : Char) : List String :=
  (splitCharAux sep s.toList).map String.mk

/-- Python `data.get(key, default)` where `data` is an arbitrary decoded value:
on a dict it returns the stored value (or the default when the key is absent),
on anything else it raises `AttributeError` (no `.get` attribute).  Note a key
stored with JSON `null` yields `null`, not the default. -/
def pyGet (data : JVal) (key : String) (dflt : JVal) : Except PyExc JVal :=
  match data with
  | .obj kvs => .ok ((lookupStr kvs key).getD dflt)
  | _ => .error .attributeError

/-! ## backend/app/services/query_parser.py -/

/-- `_get_current_quarter` (query_parser.py:46-50): the wall clock is passed in
as `month`/`year` instead of read from `datetime.now()`;
`quarter = (now.month - 1) // 3 + 1` and the result is the f-string
`f"Q{quarter}-{now.year}"`. -/
def _get_current_quarter (month year : Nat) : String :=
  "Q" ++ toString ((month - 1) / 3 + 1) ++ "-" ++ toString year

/-- `_resolve_relative_period` (query_parser.py:53-57) lifted to dynamic
values: Python `period == "CURRENT_QUARTER"` is `False` whenever `period` is
not a string, in which case the value passes through unchanged. -/
def _resolve_relative_period (month year : Nat) (period : JVal) : JVal :=
  match period with
  | .str s =>
      if s == "CURRENT_QUARTER" then .str (_get_current_quarter month year)
      else .str s
  | v => v

/-- The list comprehension `[t.upper() for t in tickers]` guarded by
`if tickers:` (query_parser.py:96-97), on an arbitrary decoded value:
a falsy value is left unchanged; a truthy list maps `.upper()` over its
elements (raising `AttributeError` on a non-string element); a truthy string
iterates its characters; a truthy dict iterates its keys; any other truthy
value (a number or `True`) is not iterable and raises `TypeError`. -/
def normalizeTickers (v : JVal) : Except PyExc JVal :=
  if pyTruthy v then
    match v with
    | .str s => .ok (.arr (s.toList.map (fun c => .str (String.mk [c.toUpper]))))
    | .arr xs => do
        let ys ← xs.mapM (fun t =>
          match t with
          | .str s => Except.ok (JVal.str (pyUpper s))
          | _ => Except.error PyExc.attributeError)
        .ok (.arr ys)
    | .obj kvs => .ok (.arr (kvs.map (fun kv => JVal.str (pyUpper kv.1))))
    | _ => .error .typeError
  else .ok v

/-- The 4-tuple returned by `QueryParser.parse`.  The Python function is
dynamically typed, so each component is a `JVal`. -/
structure ParsedTuple where
  tickers : JVal
  period : JVal
  needs_clarification : JVal
  clarification_message : JVal

/-- The fixed fallback message of `QueryParser.parse` (query_parser.py:110). -/
def parseFallbackMessage : String :=
  "I couldn\x27t understand your query. Please specify the company ticker and time period."

/-- The fallback tuple returned by the `except` clause of `QueryParser.parse`
(query_parser.py:104-111). -/
def parseFallback : ParsedTuple :=
  ⟨.null, .null, .bool true, .str parseFallbackMessage⟩

/-- The body of the `try` block of `QueryParser.parse` (query_parser.py:88-102)
after `json.loads` has produced `data`: the four `data.get` calls (with
`needs_clarification` defaulting to `False`), uppercasing of a truthy tickers
value, and sentinel resolution of the period.  The prompt construction
(query_parser.py:73-78) only feeds the provider call and is not modelled. -/
def parseBody (month year : Nat) (data : JVal) : Except PyExc ParsedTuple := do
  let tickersRaw ← pyGet data "tickers" .null
  let periodRaw ← pyGet data "period" .null
  let needs ← pyGet data "needs_clarification" (.bool false)
  let msg ← pyGet data "clarification_message" .null
  let tickers ← normalizeTickers tickersRaw
  let period := _resolve_relative_period month year periodRaw
  .ok ⟨tickers, period, needs, msg⟩

/-- `QueryParser.parse` (query_parser.py:66-111).  The provider reply is
represented by its decode outcome `decoded`: the result of `json.loads` on the
(possibly regex-extracted) reply text, with `Except.error .jsonDecodeError`
standing for a reply on which `json.loads` raises.  The `except` clause
catches exactly `json.JSONDecodeError`, `KeyError` and `TypeError` and turns
them into the fallback tuple; any other exception (notably `AttributeError`)
propagates to the caller. -/
def parse (month year : Nat) (decoded : Except PyExc JVal) :
    Except PyExc ParsedTuple :=
  match decoded >>= parseBody month year with
  | .ok r => .ok r
  | .error .jsonDecodeError => .ok parseFallback
  | .error .keyError => .ok parseFallback
  | .error .typeError => .ok parseFallback
  | .error e => .error e

/-! ## backend/app/models_registry.py -/

/-- `EVAL_MODELS` (models_registry.py:10-24): alias → OpenRouter model id. -/
def EVAL_MODELS : List (String × String) :=
  [("claude-sonnet", "anthropic/claude-sonnet-4-20250514"),
   ("claude-opus", "anthropic/claude-opus-4-20250514"),
   ("gpt-4o", "openai/gpt-4o"),
   ("gpt-4.1", "openai/gpt-4.1"),
   ("gpt-4.1-codex", "openai/codex-mini"),
   ("gemini-pro", "google/gemini-2.5-pro-preview"),
   ("qwen-plus", "qwen/qwen-plus"),
   ("kimi-k2", "moonshotai/kimi-k2")]

/-- `JUDGE_MODEL` (models_registry.py:27). -/
def JUDGE_MODEL : String := "anthropic/claude-opus-4-20250514"

/-- An entry of the static cost table: price per million input and output
tokens, in USD.  Python floats are modelled as exact rationals; every literal
in the table is an exact decimal. -/
structure CostEntry where
  input : ℚ
  output : ℚ

/-- `MODEL_COSTS_PER_1M_TOKENS` (models_registry.py:31-40). -/
def MODEL_COSTS_PER_1M_TOKENS : List (String × CostEntry) :=
  [("anthropic/claude-sonnet-4-20250514", ⟨3.0, 15.0⟩),
   ("anthropic/claude-opus-4-20250514", ⟨15.0, 75.0⟩),
   ("openai/gpt-4o", ⟨2.5, 10.0⟩),
   ("openai/gpt-4.1", ⟨2.0, 8.0⟩),
   ("openai/codex-mini", ⟨1.5, 6.0⟩),
   ("google/gemini-2.5-pro-preview", ⟨1.25, 10.0⟩),
   ("qwen/qwen-plus", ⟨0.5, 2.0⟩),
   ("moonshotai/kimi-k2", ⟨0.6, 2.4⟩)]

/-- Python `"/" in model_name`: membership of a character in a string. -/
def containsChar (s : String) (c : Char) : Bool :=
  s.toList.contains c

/-- The message of the `ValueError` raised by `get_model_id`
(models_registry.py:50): the Python repr of `list(EVAL_MODELS.keys())`
is rendered with single-quoted entries. -/
def unknownModelMessage (model_name : String) : String :=
  "Unknown model: " ++ model_name ++ ". Available models: [" ++
    String.intercalate ", " (EVAL_MODELS.map (fun kv => "\x27" ++ kv.1 ++ "\x27")) ++ "]"

/-- `get_model_id` (models_registry.py:43-50): first the alias table, then the
pass-through for names containing a namespace separator, else a `ValueError`
(modelled as `Except.error` carrying the message). -/
def get_model_id (model_name : String) : Except String String :=
  match lookupStr EVAL_MODELS model_name with
  | some mid => .ok mid
  | none =>
      if containsChar model_name '/' then .ok model_name
      else .error (unknownModelMessage model_name)

/-- `get_all_model_names` (models_registry.py:53-55). -/
def get_all_model_names : List String := EVAL_MODELS.map Prod.fst

/-- `estimate_cost` (models_registry.py:58-65).  Token counts are Python
ints; `input_tokens / 1_000_000` is Python true division, modelled exactly
in `ℚ`. -/
def estimate_cost (model_id : String) (input_tokens output_tokens : Int) : ℚ :=
  match lookupStr MODEL_COSTS_PER_1M_TOKENS model_id with
  | some costs =>
      (input_tokens : ℚ) / 1000000 * costs.input +
        (output_tokens : ℚ) / 1000000 * costs.output
  | none => 0.0

/-! ## backend/app/openrouter_client.py (data shape only)

`OpenRouterClient.chat` is a blocking network call; its observable result is
the `ChatResult` dataclass (openrouter_client.py:18-26).  Theorems quantify
over functions producing such results. -/

/-- The `ChatResult` dataclass of openrouter_client.py. -/
structure ChatResultR where
  answer : String
  input_tokens : Int
  output_tokens : Int
  total_tokens : Int
  cost : ℚ
  model : String

/-! ## backend/app/services/eval_judge.py -/

/-- `JUDGE_SYSTEM_PROMPT` (eval_judge.py:18-32); content is inert for the
claims but kept for fidelity of the call. -/
def JUDGE_SYSTEM_PROMPT : String :=
  "You are an expert evaluator assessing whether an AI-generated answer correctly addresses a question based on an expected answer.\n\nYour task is to determine if the AI\x27s answer is CORRECT or INCORRECT.\n\nGuidelines for evaluation:\n1. The AI answer does not need to be word-for-word identical to the expected answer\n2. The AI answer should contain the key facts, numbers, and conclusions from the expected answer\n3. Minor differences in phrasing, formatting, or additional context are acceptable if the core answer is correct\n4. If the AI answer contains the correct information but also includes incorrect information, mark it as INCORRECT\n5. If the AI answer is a partial match (missing key information), mark it as INCORRECT\n6. Numbers must be accurate (small rounding differences are acceptable)\n\nRespond with ONLY one word: CORRECT or INCORRECT\n\nDo not provide any explanation or additional text."

/-- `JUDGE_USER_TEMPLATE.format(...)` (eval_judge.py:35-41, 80-84). -/
def judge_user_message (question expected_answer actual_answer : String) : String :=
  "Question: " ++ question ++ "\n\nExpected Answer: " ++ expected_answer ++
    "\n\nAI-Generated Answer: " ++ actual_answer ++
    "\n\nIs the AI-generated answer correct?"

/-- The `JudgmentResult` dataclass (eval_judge.py:44-53). -/
structure JudgmentResult where
  is_correct : Bool
  question : String
  expected_answer : String
  actual_answer : String
  input_tokens : Int
  output_tokens : Int
  cost : ℚ

/-- `EvalJudge.judge_answer` (eval_judge.py:63-105).  The OpenRouter client is
passed in as `chatFn` (system prompt, user message, model, temperature); the
code calls it with `JUDGE_SYSTEM_PROMPT`, the formatted user message,
`JUDGE_MODEL` and temperature `0.0`, then sets
`is_correct = (result.answer.strip().upper() == "CORRECT")`. -/
def EvalJudge.judge_answer (chatFn : String → String → String → ℚ → ChatResultR)
    (question expected_answer actual_answer : String) : JudgmentResult :=
  let user_message := judge_user_message question expected_answer actual_answer
  let result := chatFn JUDGE_SYSTEM_PROMPT user_message JUDGE_MODEL 0
  let response_text := pyUpper (pyStrip result.answer)
  { is_correct := response_text == "CORRECT"
    question := question
    expected_answer := expected_answer
    actual_answer := actual_answer
    input_tokens := result.input_tokens
    output_tokens := result.output_tokens
    cost := result.cost }

/-! ## backend/app/services/rag_service.py -/

/-- The chunk shape used by `_format_context` and the citation/raw-context
construction: text plus a string-keyed metadata mapping (the `Chunk` class
itself lives in the ingestion package, outside the verified core). -/
structure Chunk where
  text : String
  metadata : List (String × String)

/-- `meta.get(key, "")` on chunk metadata. -/
def metaGet (meta : List (String × String)) (key : String) : String :=
  (lookupStr meta key).getD ""

/-- `ChatRequest` (schemas.py:30-35). -/
structure ChatRequest where
  question : String
  tickers : Option (List String)
  period : Option String
  top_k : Int
  model : Option String

/-- `UsageInfo` (schemas.py:22-27). -/
structure UsageInfo where
  input_tokens : Int
  output_tokens : Int
  total_tokens : Int
  cost : ℚ

/-- One entry of the `raw_context` list built in `RAGService.answer`
(rag_service.py:85-92). -/
structure RawContextEntry where
  text : String
  metadata : List (String × String)
  score : ℚ

/-- `ChatResponse` (schemas.py:38-43), with the citation type abstracted:
`build_citations` lives in services/citation.py, outside the claims, and is
passed in as a function into an arbitrary type `α`. -/
structure ChatResponse (α : Type) where
  answer : String
  citations : List α
  raw_context : List RawContextEntry
  model : Option String
  usage : Option UsageInfo

/-- `SYSTEM_PROMPT` (rag_service.py:17-21). -/
def SYSTEM_PROMPT : String :=
  "You are a financial analysis assistant.\nYou are given context from official company documents (filings, press releases, and earnings call transcripts).\nAnswer the user\x27s question using ONLY the provided context.\nIf the answer cannot be found in the context, say that you do not know and suggest which documents or periods might contain it.\nBe precise with numbers and clearly state which company and period you are referring to."

/-- `_format_context` (rag_service.py:24-32): one header line per chunk
(1-based index, ticker, filing type, period), then the chunk text, then an
empty part, all joined with newlines. -/
def _format_context (chunks_with_scores : List (Chunk × ℚ)) : String :=
  String.intercalate "\n"
    (chunks_with_scores.enum.flatMap (fun p =>
      let idx := p.1 + 1
      let chunk := p.2.1
      ["[Chunk " ++ toString idx ++ " | " ++ metaGet chunk.metadata "ticker" ++
         " | " ++ metaGet chunk.metadata "filing_type" ++ " | " ++
         metaGet chunk.metadata "period" ++ "]",
       chunk.text, ""]))

/-- The ranked chunk list of `RAGService.answer` (rag_service.py:48-54):
retrieval filtered by the request, then `rerank_by_distance`. -/
def rag_ranked
    (retrieve : String → Int → Option (List String) → Option String → List (Chunk × ℚ))
    (rerank_by_distance : List (Chunk × ℚ) → List (Chunk × ℚ))
    (request : ChatRequest) : List (Chunk × ℚ) :=
  rerank_by_distance
    (retrieve request.question request.top_k request.tickers request.period)

/-- The system prompt assembled in `RAGService.answer` (rag_service.py:55-56):
the grounding instruction followed by the rendered context block. -/
def rag_system_prompt
    (retrieve : String → Int → Option (List String) → Option String → List (Chunk × ℚ))
    (rerank_by_distance : List (Chunk × ℚ) → List (Chunk × ℚ))
    (request : ChatRequest) : String :=
  SYSTEM_PROMPT ++ "\n\nContext:\n" ++
    _format_context (rag_ranked retrieve rerank_by_distance request)

/-- `RAGService.answer` (rag_service.py:47-99).  The external collaborators —
the retriever (`Retriever.retrieve`), `rerank_by_distance`, `build_citations`,
the default OpenAI client and the OpenRouter client — are passed in as
functions.  `if request.model:` is Python truthiness: `None` and the empty
string both take the default-client branch that reports no usage; a truthy
model name is resolved through `get_model_id` (whose `ValueError` propagates)
and sent to the OpenRouter client, whose token counts and cost populate
`usage`. -/
def RAGService.answer {α : Type}
    (retrieve : String → Int → Option (List String) → Option String → List (Chunk × ℚ))
    (rerank_by_distance : List (Chunk × ℚ) → List (Chunk × ℚ))
    (build_citations : List Chunk → List α)
    (openai_chat : String → String → String)
    (openrouter_chat : String → String → String → ChatResultR)
    (request : ChatRequest) : Except String (ChatResponse α) :=
  let ranked := rag_ranked retrieve rerank_by_distance request
  let system_prompt := rag_system_prompt retrieve rerank_by_distance request
  let chunks_only := ranked.map Prod.fst
  let citations := build_citations chunks_only
  let raw_context := ranked.map (fun cs => RawContextEntry.mk cs.1.text cs.1.metadata cs.2)
  match request.model with
  | some m =>
      if m == "" then
        .ok { answer := openai_chat system_prompt request.question
              citations := citations
              raw_context := raw_context
              model := none
              usage := none }
      else
        match get_model_id m with
        | .error e => .error e
        | .ok model_id =>
            let result := openrouter_chat system_prompt request.question model_id
            .ok { answer := result.answer
                  citations := citations
                  raw_context := raw_context
                  model := some result.model
                  usage := some ⟨result.input_tokens, result.output_tokens,
                                 result.total_tokens, result.cost⟩ }
  | none =>
      .ok { answer := openai_chat system_prompt request.question
            citations := citations
            raw_context := raw_context
            model := none
            usage := none }

/-! ## scripts/run_eval.py -/

/-- `EvalQuestion` (run_eval.py:36-42). -/
structure EvalQuestion where
  question : String
  expected_answer : String
  tickers : List String
  period : String

/-- `ModelResult` (run_eval.py:45-58). -/
structure ModelResult where
  model : String
  question : String
  expected_answer : String
  actual_answer : String
  is_correct : Bool
  input_tokens : Int
  output_tokens : Int
  cost : ℚ
  judge_input_tokens : Int
  judge_output_tokens : Int
  judge_cost : ℚ

/-- `ModelSummary` (run_eval.py:61-73), with all dataclass defaults zero. -/
structure ModelSummary where
  model : String
  total_questions : Nat
  correct : Nat
  accuracy : ℚ
  total_input_tokens : Int
  total_output_tokens : Int
  total_cost : ℚ
  judge_input_tokens : Int
  judge_output_tokens : Int
  judge_cost : ℚ

/-- `ModelSummary(model=model)` with default fields (run_eval.py:141). -/
def ModelSummary.init (model : String) : ModelSummary :=
  ⟨model, 0, 0, 0, 0, 0, 0, 0, 0, 0⟩

/-- `EvalResults` (run_eval.py:76-83). -/
structure EvalResults where
  timestamp : String
  models_evaluated : List String
  total_questions : Nat
  results : List ModelResult
  summaries : List ModelSummary

/-- The outcome of the `try` block of one (question, model) iteration of
`run_evaluation` up to the judge call (run_eval.py:149-169): the answer and
usage fields extracted from the `/chat` response, plus the judge verdict.
The iteration is driven by an oracle
`EvalQuestion → String → Except String PairSuccess`; an `Except.error e`
stands for any exception raised by `call_rag_api` or by
`judge.judge_answer` for that pair (`e` is `str(e)` of the exception). -/
structure PairSuccess where
  actual_answer : String
  input_tokens : Int
  output_tokens : Int
  cost : ℚ
  judgment : JudgmentResult

/-- The `ModelResult` row recorded for one (question, model) pair: the success
row of run_eval.py:171-184, or, when the pair's call raises `e`, the failure
row of run_eval.py:202-212 (`actual_answer = f"ERROR: {e}"`, `is_correct =
False`, zero tokens and cost, judge fields left at their dataclass zeros). -/
def pairRow (oracle : EvalQuestion → String → Except String PairSuccess)
    (q : EvalQuestion) (model_name : String) : ModelResult :=
  match oracle q model_name with
  | .ok s =>
      { model := model_name
        question := q.question
        expected_answer := q.expected_answer
        actual_answer := s.actual_answer
        is_correct := s.judgment.is_correct
        input_tokens := s.input_tokens
        output_tokens := s.output_tokens
        cost := s.cost
        judge_input_tokens := s.judgment.input_tokens
        judge_output_tokens := s.judgment.output_tokens
        judge_cost := s.judgment.cost }
  | .error e =>
      { model := model_name
        question := q.question
        expected_answer := q.expected_answer
        actual_answer := "ERROR: " ++ e
        is_correct := false
        input_tokens := 0
        output_tokens := 0
        cost := 0
        judge_input_tokens := 0
        judge_output_tokens := 0
        judge_cost := 0 }

/-- The lines printed for a failing pair (run_eval.py:199-200); empty for a
successful pair. -/
def pairLogs (oracle : EvalQuestion → String → Except String PairSuccess)
    (q : EvalQuestion) (model_name : String) : List String :=
  match oracle q model_name with
  | .ok _ => []
  | .error e =>
      ["\nError evaluating " ++ model_name ++ " on question: " ++
         (q.question.take 50) ++ "...",
       "Error: " ++ e]

/-- The per-pair update of a model's running summary: the success updates of
run_eval.py:186-196, or just `total_questions += 1` on failure
(run_eval.py:213). -/
def summaryStep (summary : ModelSummary) (outcome : Except String PairSuccess) :
    ModelSummary :=
  match outcome with
  | .ok s =>
      { summary with
        total_questions := summary.total_questions + 1
        correct := summary.correct + (if s.judgment.is_correct then 1 else 0)
        total_input_tokens := summary.total_input_tokens + s.input_tokens
        total_output_tokens := summary.total_output_tokens + s.output_tokens
        total_cost := summary.total_cost + s.cost
        judge_input_tokens := summary.judge_input_tokens + s.judgment.input_tokens
        judge_output_tokens := summary.judge_output_tokens + s.judgment.output_tokens
        judge_cost := summary.judge_cost + s.judgment.cost }
  | .error _ => { summary with total_questions := summary.total_questions + 1 }

/-- In-place update of `model_summaries[key]` (a Python dict keyed by model
name, modelled as an association list; the key is always present because the
dict is built from the same `models` list the loop iterates over). -/
def updateAList (m : List (String × ModelSummary)) (key : String)
    (f : ModelSummary → ModelSummary) : List (String × ModelSummary) :=
  match m with
  | [] => []
  | (k, v) :: rest =>
      if k == key then (k, f v) :: rest else (k, v) :: updateAList rest key f

/-- `{model: ModelSummary(model=model) for model in models}`
(run_eval.py:141): dict-comprehension semantics — first-occurrence insertion
order, and a duplicate model name collapses onto the same entry (the
overwriting value is identical). -/
def initSummaries (models : List String) : List (String × ModelSummary) :=
  models.foldl (fun acc model =>
    if acc.any (fun kv => kv.1 == model) then acc
    else acc ++ [(model, ModelSummary.init model)]) []

/-- The mutable state threaded through the evaluation loop: the accumulated
`results.results` rows, the `model_summaries` dict, and the printed error
lines. -/
structure EvalState where
  rows : List ModelResult
  summaries : List (String × ModelSummary)
  logs : List String

/-- One iteration of the inner loop of `run_evaluation` (run_eval.py:146-215):
append the pair's row, update that model's summary, and (on failure) print. -/
def evalStep (oracle : EvalQuestion → String → Except String PairSuccess)
    (q : EvalQuestion) (st : EvalState) (model_name : String) : EvalState :=
  { rows := st.rows ++ [pairRow oracle q model_name]
    summaries := updateAList st.summaries model_name
      (fun s => summaryStep s (oracle q model_name))
    logs := st.logs ++ pairLogs oracle q model_name }

/-- `run_evaluation` (run_eval.py:128-223): the nested question × model loop,
then the finalization pass that sets `accuracy = correct / total_questions`
for every summary with `total_questions > 0` and appends every summary.
Returns the `EvalResults` plus the printed error lines. -/
def run_evaluation (questions : List EvalQuestion) (models : List String)
    (oracle : EvalQuestion → String → Except String PairSuccess)
    (timestamp : String) : EvalResults × List String :=
  let init : EvalState := ⟨[], initSummaries models, []⟩
  let final := questions.foldl (fun st q => models.foldl (evalStep oracle q) st) init
  let summaries := final.summaries.map (fun kv =>
    if kv.2.total_questions > 0 then
      { kv.2 with accuracy := (kv.2.correct : ℚ) / (kv.2.total_questions : ℚ) }
    else kv.2)
  (⟨timestamp, models, questions.length, final.rows, summaries⟩, final.logs)

/-- The validation loop body of `main` (run_eval.py:336-341) for one
requested model name: the `ValueError` message of `get_model_id`, if any. -/
def modelValidationError (m : String) : Option String :=
  match get_model_id m with
  | .error e => some e
  | .ok _ => none

/-- The model-selection step of `main` (run_eval.py:331-341): `"all"`
(case-insensitively) selects every registered alias; otherwise the argument is
split on commas, each entry stripped, and each entry validated through
`get_model_id` — the first `ValueError` prints `Error: <msg>` and exits with
status 1 (modelled as `Except.error`). -/
def cli_select_models (models_arg : String) : Except String (List String) :=
  if pyLower models_arg == "all" then .ok get_all_model_names
  else
    let models := (pySplit models_arg ',').map pyStrip
    match models.findSome? modelValidationError with
    | some e => .error ("Error: " ++ e)
    | none => .ok models

/-- `main` (run_eval.py:298-364) restricted to its decision structure: model
selection happens before any question is evaluated, so an unresolvable model
name aborts with a non-zero exit before the batch starts and
`run_evaluation` is never invoked. -/
def cli_main (models_arg : String) (questions : List EvalQuestion)
    (oracle : EvalQuestion → String → Except String PairSuccess)
    (timestamp : String) : Except String (EvalResults × List String) := do
  let models ← cli_select_models models_arg
  .ok (run_evaluation questions models oracle timestamp)

/-! ## Specification-side definitions

These two definitions are written from the specification text, not from the
code; theorems compare the code's behaviour against them. -/

/-- Written from the spec: the canonical fiscal-period shape
`Q<digit>-<YYYY>` — a literal `Q`, one decimal digit, a hyphen, and four
decimal digits. -/
def isCanonicalPeriod (s : String) : Bool :=
  match s.toList with
  | ['Q', d, '-', y1, y2, y3, y4] =>
      d.isDigit && y1.isDigit && y2.isDigit && y3.isDigit && y4.isDigit
  | _ => false

/-- Written from the spec: case-insensitive exact comparison of a verdict
string with `"CORRECT"` — seven characters, each position matching the
corresponding letter in either case, nothing more. -/
def ci_matches_CORRECT (s : String) : Bool :=
  match s.toList with
  | [c1, c2, c3, c4, c5, c6, c7] =>
      (c1 == 'C' || c1 == 'c') && (c2 == 'O' || c2 == 'o') &&
      (c3 == 'R' || c3 == 'r') && (c4 == 'R' || c4 == 'r') &&
      (c5 == 'E' || c5 == 'e') && (c6 == 'C' || c6 == 'c') &&
      (c7 == 'T' || c7 == 't')
  | _ => false

/-! ## Helper lemmas -/

/-- `Char.ofNat` evaluates to its argument on valid codepoints. -/
lemma char_toNat_ofNat_of_valid (n : Nat) (h : n.isValidChar) :
    (Char.ofNat n).toNat = n := by
  simp only [Char.ofNat, h, dite_true, Char.ofNatAux, Char.toNat, UInt32.toNat]
  exact BitVec.toNat_ofNatLt n _

/-- Characters with equal codepoints are equal. -/
lemma char_eq_of_toNat_eq {c d : Char} (h : c.toNat = d.toNat) : c = d := by
  apply Char.eq_of_val_eq
  exact UInt32.ext h

/-- `Char.toUpper c` hits an ASCII uppercase letter `u` exactly on `u` itself
and on its lowercase partner `l`. -/
lemma char_toUpper_eq_iff {u l : Char} (hu1 : 65 ≤ u.toNat) (hu2 : u.toNat ≤ 90)
    (hl : l.toNat = u.toNat + 32) (c : Char) :
    c.toUpper = u ↔ (c = u ∨ c = l) := by
  unfold Char.toUpper
  by_cases h : c.toNat ≥ 97 ∧ c.toNat ≤ 122
  · rw [if_pos h]
    have hv : (c.toNat - 32).isValidChar := by
      unfold Nat.isValidChar
      omega
    have key : (Char.ofNat (c.toNat - 32)).toNat = c.toNat - 32 :=
      char_toNat_ofNat_of_valid _ hv
    constructor
    · intro hc
      right
      apply char_eq_of_toNat_eq
      have h2 := congrArg Char.toNat hc
      rw [key] at h2
      omega
    · rintro (rfl | rfl)
      · omega
      · apply char_eq_of_toNat_eq
        rw [key]
        omega
  · rw [if_neg h]
    constructor
    · intro hc
      exact Or.inl hc
    · rintro (rfl | rfl)
      · rfl
      · exfalso
        exact h (by omega)

/-- Uppercasing a string yields `"CORRECT"` exactly on the strings the
spec-side case-insensitive comparator accepts. -/
lemma pyUpper_eq_CORRECT_iff (s : String) :
    pyUpper s = "CORRECT" ↔ ci_matches_CORRECT s = true := by
  have hC := char_toUpper_eq_iff (u := 'C') (l := 'c') (by decide) (by decide) (by decide)
  have hO := char_toUpper_eq_iff (u := 'O') (l := 'o') (by decide) (by decide) (by decide)
  have hR := char_toUpper_eq_iff (u := 'R') (l := 'r') (by decide) (by decide) (by decide)
  have hE := char_toUpper_eq_iff (u := 'E') (l := 'e') (by decide) (by decide) (by decide)
  have hT := char_toUpper_eq_iff (u := 'T') (l := 't') (by decide) (by decide) (by decide)
  unfold pyUpper ci_matches_CORRECT
  rcases s with ⟨l⟩
  simp only [String.toList]
  rcases l with _ | ⟨a, _ | ⟨b, _ | ⟨c, _ | ⟨d, _ | ⟨e, _ | ⟨f, _ | ⟨g, _ | ⟨h8, t⟩⟩⟩⟩⟩⟩⟩⟩ <;>
    simp_all [String.ext_iff, hC, hO, hR, hE, hT, and_assoc]

/-- A member on which `f` fires makes `List.findSome?` fire. -/
lemma findSome?_isSome_of_mem {α β : Type} {l : List α} {f : α → Option β} {x : α}
    (hx : x ∈ l) (hfx : (f x).isSome) : (l.findSome? f).isSome := by
  induction l with
  | nil => cases hx
  | cons a t ih =>
    rw [List.findSome?]
    cases hfa : f a with
    | some b => simp
    | none =>
      rcases List.mem_cons.mp hx with rfl | hmem
      · rw [hfa] at hfx
        simp at hfx
      · exact ih hmem

/-! ## Claims -/

/-- Keys of the alias table never contain the namespace separator. -/
lemma eval_models_keys_no_slash {name mid : String}
    (h : lookupStr EVAL_MODELS name = some mid) : containsChar name '/' = false := by
  simp only [EVAL_MODELS, lookupStr] at h
  split_ifs at h <;> simp_all [beq_iff_eq] <;> subst_eqs <;> decide

/-- C9: for every model id in the static cost table, `estimate_cost` with a
million input tokens and no output tokens returns exactly that model's input
price, and in general returns `input_tokens/1e6 * input_price +
output_tokens/1e6 * output_price`; for a model id absent from the table it
returns `0.0` for all token counts. -/
theorem C9_estimate_cost_table :
    (∀ model_id costs, lookupStr MODEL_COSTS_PER_1M_TOKENS model_id = some costs →
      estimate_cost model_id 1000000 0 = costs.input) ∧
    (∀ model_id costs input_tokens output_tokens,
      lookupStr MODEL_COSTS_PER_1M_TOKENS model_id = some costs →
      estimate_cost model_id input_tokens output_tokens =
        (input_tokens : ℚ) / 1000000 * costs.input +
          (output_tokens : ℚ) / 1000000 * costs.output) ∧
    (∀ model_id input_tokens output_tokens,
      lookupStr MODEL_COSTS_PER_1M_TOKENS model_id = none →
      estimate_cost model_id input_tokens output_tokens = 0) := by
  refine ⟨?_, ?_, ?_⟩
  · intro model_id costs h
    simp [estimate_cost, h]
  · intro model_id costs input_tokens output_tokens h
    simp [estimate_cost, h]
  · intro model_id input_tokens output_tokens h
    simp [estimate_cost, h]
    norm_num

/-- C9 witness: evaluation at a known id (`openai/gpt-4o`, table input price
2.5) and at an unknown id. -/
theorem C9_estimate_cost_table_witness :
    estimate_cost "openai/gpt-4o" 1000000 0 = (2.5 : ℚ) ∧
      estimate_cost "no-such-model" 123 456 = 0 :=
  ⟨C9_estimate_cost_table.1 "openai/gpt-4o" ⟨2.5, 10.0⟩ rfl,
   C9_estimate_cost_table.2.2 "no-such-model" 123 456 rfl⟩

/-- C6: `get_model_id` returns a name containing `/` unchanged (no alias
contains `/`), resolves a registered alias to its canonical id, and otherwise
fails with the `ValueError` message listing the known aliases; and the
evaluation CLI's model-selection step rejects an explicitly requested
unresolvable name before `run_evaluation` is ever invoked. -/
theorem C6_model_resolution :
    (∀ name, containsChar name '/' = true → get_model_id name = .ok name) ∧
    (∀ name mid, lookupStr EVAL_MODELS name = some mid →
      get_model_id name = .ok mid) ∧
    (∀ name, containsChar name '/' = false → lookupStr EVAL_MODELS name = none →
      get_model_id name = .error (unknownModelMessage name)) ∧
    (∀ models_arg name questions oracle timestamp,
      (pyLower models_arg == "all") = false →
      name ∈ (pySplit models_arg ',').map pyStrip →
      containsChar name '/' = false → lookupStr EVAL_MODELS name = none →
      ∃ e, cli_main models_arg questions oracle timestamp = .error e) := by
  refine ⟨?_, ?_, ?_, ?_⟩
  · intro name h
    unfold get_model_id
    cases hl : lookupStr EVAL_MODELS name with
    | some mid =>
        have := eval_models_keys_no_slash hl
        rw [this] at h
        cases h
    | none => simp [h]
  · intro name mid h
    simp [get_model_id, h]
  · intro name h hl
    simp [get_model_id, hl, h]
  · intro models_arg name questions oracle timestamp hall hmem hslash hlook
    have hgm : get_model_id name = .error (unknownModelMessage name) := by
      simp [get_model_id, hlook, hslash]
    have hfire : (modelValidationError name).isSome := by
      simp [modelValidationError, hgm]
    have hsome := findSome?_isSome_of_mem hmem hfire
    rcases Option.isSome_iff_exists.mp hsome with ⟨e, he⟩
    refine ⟨"Error: " ++ e, ?_⟩
    simp only [cli_main, cli_select_models, hall, Bool.false_eq_true, if_false, he]
    rfl

/-- C6 witness: a canonical-looking name passes through, the `claude-sonnet`
alias resolves, an unknown bare name fails with the alias-listing message, and
the CLI rejects it before the batch. -/
theorem C6_model_resolution_witness :
    get_model_id "foo/bar" = .ok "foo/bar" ∧
    get_model_id "claude-sonnet" = .ok "anthropic/claude-sonnet-4-20250514" ∧
    get_model_id "nope" = .error (unknownModelMessage "nope") ∧
    ∃ e, cli_main "nope" [] (fun _ _ => .error "unused") "ts" = .error e :=
  ⟨C6_model_resolution.1 "foo/bar" rfl,
   C6_model_resolution.2.1 "claude-sonnet" "anthropic/claude-sonnet-4-20250514" rfl,
   C6_model_resolution.2.2.1 "nope" rfl rfl,
   C6_model_resolution.2.2.2 "nope" "nope" [] (fun _ _ => .error "unused") "ts"
     rfl (by decide) rfl rfl⟩

/-- Bind on a successful `Except` value reduces to the continuation. -/
lemma except_bind_ok {ε α β : Type} (a : α) (f : α → Except ε β) :
    (Except.ok a : Except ε α) >>= f = f a := rfl

/-- Bind on a failed `Except` value propagates the error. -/
lemma except_bind_err {ε α β : Type} (e : ε) (f : α → Except ε β) :
    (Except.error e : Except ε α) >>= f = Except.error e := rfl

/-- On a decoded object, the try-block body reduces to normalising the
tickers value and packaging the four extracted fields. -/
lemma parseBody_obj (m y : Nat) (kvs : List (String × JVal)) :
    parseBody m y (.obj kvs) =
      (normalizeTickers ((lookupStr kvs "tickers").getD .null)).map
        (fun t => ⟨t, _resolve_relative_period m y ((lookupStr kvs "period").getD .null),
          (lookupStr kvs "needs_clarification").getD (.bool false),
          (lookupStr kvs "clarification_message").getD .null⟩) := by
  cases h : normalizeTickers ((lookupStr kvs "tickers").getD .null) <;>
    simp [parseBody, pyGet, except_bind_ok, except_bind_err, h, Except.map]

/-- On a decoded object, `parse` dispatches on the body's outcome: success is
returned, the three caught exception classes give the fallback, and
`AttributeError` propagates. -/
lemma parse_ok_eq (m y : Nat) (data : JVal) :
    parse m y (.ok data) =
      match parseBody m y data with
      | .ok r => .ok r
      | .error .jsonDecodeError => .ok parseFallback
      | .error .keyError => .ok parseFallback
      | .error .typeError => .ok parseFallback
      | .error e => .error e := rfl

/-- C1 is falsified as stated: the reply `{"tickers": [1]}` JSON-decodes to an
object, but uppercasing the non-string ticker entry raises `AttributeError`,
which the except clause does not catch — `parse` raises instead of returning
the fallback. -/
theorem C1_counterexample :
    parse 1 2025 (.ok (.obj [("tickers", .arr [.num 1])])) =
      .error .attributeError := rfl

/-- C1 (amended): `parse` converts a JSON-decode error, a `KeyError`, or a
`TypeError` raised in the body uniformly into the fixed fallback tuple
`(None, None, True, <fixed message>)`; the only exception that can escape to
the caller is `AttributeError` (from a reply decoding to a non-object or from
a non-string ticker entry). -/
theorem C1_fail_closed :
    ∀ (month year : Nat) (decoded : Except PyExc JVal),
      ((decoded = .error .jsonDecodeError ∨ decoded = .error .keyError ∨
          decoded = .error .typeError) →
        parse month year decoded = .ok parseFallback) ∧
      (∀ data, decoded = .ok data →
        parseBody month year data = .error .typeError →
        parse month year decoded = .ok parseFallback) ∧
      (∀ e, parse month year decoded = .error e → e = .attributeError) := by
  intro month year decoded
  refine ⟨?_, ?_, ?_⟩
  · rintro (rfl | rfl | rfl) <;> rfl
  · rintro data rfl hbody
    rw [parse_ok_eq, hbody]
  · intro e he
    cases hd : decoded with
    | error e0 =>
        rw [hd] at he
        cases e0 <;> simp_all [parse, except_bind_err]
    | ok data =>
        rw [hd, parse_ok_eq] at he
        cases hb : parseBody month year data with
        | ok r =>
            rw [hb] at he
            cases he
        | error pe =>
            rw [hb] at he
            cases pe <;> simp_all

/-- C1 witness: a non-JSON reply (decode error) yields the fallback tuple. -/
theorem C1_fail_closed_witness :
    parse 6 2024 (.error .jsonDecodeError) = .ok parseFallback :=
  (C1_fail_closed 6 2024 _).1 (Or.inl rfl)

/-- C10 is falsified as stated: the reply `{"tickers": 5}` decodes to a JSON
object missing the `needs_clarification` key, yet `parse` returns the
clarification fallback (`needs_clarification` true with the fixed message)
rather than the `False` default, because the truthy non-iterable tickers value
raises `TypeError` first. -/
theorem C10_counterexample :
    lookupStr [("tickers", JVal.num 5)] "needs_clarification" = none ∧
    parse 1 2025 (.ok (.obj [("tickers", JVal.num 5)])) = .ok parseFallback ∧
    parseFallback.needs_clarification = JVal.bool true :=
  ⟨rfl, rfl, rfl⟩

/-- C10 (amended): on a decoded object for which the extraction body completes
without an exception, each missing key is treated as its default — `None` for
tickers, period and clarification message, `False` for `needs_clarification` —
and an object missing all four keys always completes, yielding exactly
`(None, None, False, None)` with no clarification fallback. -/
theorem C10_missing_keys_default :
    ∀ (month year : Nat) (kvs : List (String × JVal)),
      (∀ r, parseBody month year (.obj kvs) = .ok r →
        (lookupStr kvs "tickers" = none → r.tickers = JVal.null) ∧
        (lookupStr kvs "period" = none → r.period = JVal.null) ∧
        (lookupStr kvs "needs_clarification" = none →
          r.needs_clarification = JVal.bool false) ∧
        (lookupStr kvs "clarification_message" = none →
          r.clarification_message = JVal.null)) ∧
      (lookupStr kvs "tickers" = none → lookupStr kvs "period" = none →
        lookupStr kvs "needs_clarification" = none →
        lookupStr kvs "clarification_message" = none →
        parse month year (.ok (.obj kvs)) =
          .ok ⟨JVal.null, JVal.null, JVal.bool false, JVal.null⟩) := by
  intro month year kvs
  constructor
  · intro r hr
    rw [parseBody_obj] at hr
    cases hnt : normalizeTickers ((lookupStr kvs "tickers").getD .null) with
    | error e =>
        rw [hnt] at hr
        cases hr
    | ok t =>
        rw [hnt] at hr
        simp only [Except.map] at hr
        cases hr
        refine ⟨?_, ?_, ?_, ?_⟩
        · intro h1
          rw [h1] at hnt
          simp [normalizeTickers, pyTruthy] at hnt
          simp [← hnt]
        · intro h2
          simp [h2, _resolve_relative_period]
        · intro h3
          simp [h3]
        · intro h4
          simp [h4]
  · intro h1 h2 h3 h4
    rw [parse_ok_eq, parseBody_obj, h1, h2, h3, h4]
    rfl

/-- C10 witness: the empty object yields all four defaults. -/
theorem C10_missing_keys_default_witness :
    parse 2 2026 (.ok (.obj [])) =
      .ok ⟨JVal.null, JVal.null, JVal.bool false, JVal.null⟩ :=
  (C10_missing_keys_default 2 2026 []).2 rfl rfl rfl rfl

/-- C4 is falsified as stated: the reply `{"period": "banana"}` makes `parse`
return period `"banana"`, which is neither null nor of the canonical
`Q<digit>-<YYYY>` shape. -/
theorem C4_counterexample :
    parse 1 2025 (.ok (.obj [("period", JVal.str "banana")])) =
      .ok ⟨JVal.null, JVal.str "banana", JVal.bool false, JVal.null⟩ ∧
    isCanonicalPeriod "banana" = false :=
  ⟨rfl, rfl⟩

/-- C4 (amended): the period of a successful `parse` of a decoded object is
null (also covering the fallback tuple), or the provider-supplied period value
passed through verbatim and unvalidated, or — exactly when that value is the
sentinel string `"CURRENT_QUARTER"` — the concrete current-quarter string; no
other canonicalisation is performed. -/
theorem C4_period_passthrough :
    ∀ (month year : Nat) (kvs : List (String × JVal)) (r : ParsedTuple),
      parse month year (.ok (.obj kvs)) = .ok r →
      r.period = JVal.null ∨
      r.period = (lookupStr kvs "period").getD JVal.null ∨
      ((lookupStr kvs "period").getD JVal.null = JVal.str "CURRENT_QUARTER" ∧
        r.period = JVal.str (_get_current_quarter month year)) := by
  intro month year kvs r hr
  rw [parse_ok_eq, parseBody_obj] at hr
  cases hnt : normalizeTickers ((lookupStr kvs "tickers").getD .null) with
  | error e =>
      rw [hnt] at hr
      cases e <;> simp only [Except.map] at hr <;> first
        | (cases hr; left; rfl)
        | cases hr
  | ok t =>
      rw [hnt] at hr
      simp only [Except.map] at hr
      cases hr
      cases hp : (lookupStr kvs "period").getD JVal.null with
      | str s =>
          by_cases hs : s = "CURRENT_QUARTER"
          · right; right
            subst hs
            exact ⟨rfl, by simp [_resolve_relative_period]⟩
          · right; left
            simp [_resolve_relative_period, hs]
      | null => right; left; simp [_resolve_relative_period]
      | bool b => right; left; simp [_resolve_relative_period]
      | num n => right; left; simp [_resolve_relative_period]
      | arr xs => right; left; simp [_resolve_relative_period]
      | obj fs => right; left; simp [_resolve_relative_period]

/-- C4 witness: a non-sentinel period string passes through verbatim. -/
theorem C4_period_passthrough_witness :
    (⟨JVal.null, JVal.str "X", JVal.bool false, JVal.null⟩ : ParsedTuple).period = JVal.null ∨
    (⟨JVal.null, JVal.str "X", JVal.bool false, JVal.null⟩ : ParsedTuple).period =
      (lookupStr [("period", JVal.str "X")] "period").getD JVal.null ∨
    ((lookupStr [("period", JVal.str "X")] "period").getD JVal.null =
        JVal.str "CURRENT_QUARTER" ∧
      (⟨JVal.null, JVal.str "X", JVal.bool false, JVal.null⟩ : ParsedTuple).period =
        JVal.str (_get_current_quarter 3 2027)) :=
  C4_period_passthrough 3 2027 [("period", JVal.str "X")] _ rfl

/-- C8: for any wall-clock month 1..12 and year, a reply whose period field is
exactly the sentinel `"CURRENT_QUARTER"` resolves to the concrete string
`Q<q>-<year>` where `q = (month+2)/3` equals `⌈month/3⌉` (the first conjunct
characterises it as the least `q` in 1..4 with `month ≤ 3q`) and the year is
the current year. -/
theorem C8_current_quarter :
    ∀ (month year : Nat),
      1 ≤ month → month ≤ 12 →
      (1 ≤ (month + 2) / 3 ∧ (month + 2) / 3 ≤ 4 ∧
        month ≤ 3 * ((month + 2) / 3) ∧ 3 * ((month + 2) / 3) < month + 3) ∧
      (∀ kvs r, lookupStr kvs "period" = some (JVal.str "CURRENT_QUARTER") →
        parseBody month year (.obj kvs) = .ok r →
        r.period = JVal.str ("Q" ++ toString ((month + 2) / 3) ++ "-" ++ toString year)) ∧
      (parse month year (.ok (.obj [("period", JVal.str "CURRENT_QUARTER")])) =
        .ok ⟨JVal.null,
          JVal.str ("Q" ++ toString ((month + 2) / 3) ++ "-" ++ toString year),
          JVal.bool false, JVal.null⟩) := by
  intro month year h1 h12
  have hq : (month - 1) / 3 + 1 = (month + 2) / 3 := by omega
  have hgcq : _get_current_quarter month year =
      "Q" ++ toString ((month + 2) / 3) ++ "-" ++ toString year := by
    rw [_get_current_quarter, hq]
  refine ⟨by omega, ?_, ?_⟩
  · intro kvs r hp hr
    rw [parseBody_obj] at hr
    cases hnt : normalizeTickers ((lookupStr kvs "tickers").getD .null) with
    | error e =>
        rw [hnt] at hr
        cases hr
    | ok t =>
        rw [hnt] at hr
        simp only [Except.map] at hr
        cases hr
        simp [hp, _resolve_relative_period, hgcq]
  · rw [parse_ok_eq, parseBody_obj]
    simp [lookupStr, normalizeTickers, pyTruthy, _resolve_relative_period,
      hgcq, Except.map]

/-- C8 witness: May 2030 resolves the sentinel to `Q2-2030`. -/
theorem C8_current_quarter_witness :
    parse 5 2030 (.ok (.obj [("period", JVal.str "CURRENT_QUARTER")])) =
      .ok ⟨JVal.null, JVal.str "Q2-2030", JVal.bool false, JVal.null⟩ :=
  (C8_current_quarter 5 2030 (by decide) (by decide)).2.2

/-- C3 is falsified as stated: a judge reply `" correct "` differs from
`"CORRECT"` even case-insensitively (it has surrounding whitespace), yet
`judge_answer` sets `is_correct` to true, because the code strips the reply
before comparing. -/
theorem C3_counterexample :
    (EvalJudge.judge_answer
        (fun _ _ _ _ => ⟨" correct ", 7, 1, 8, 0, "anthropic/claude-opus-4-20250514"⟩)
        "q" "e" "a").is_correct = true ∧
    ci_matches_CORRECT " correct " = false :=
  ⟨rfl, rfl⟩

/-- C3 (amended): `judge_answer` never raises, and sets `is_correct` to true
exactly when the judge reply, after stripping leading and trailing whitespace,
equals `"CORRECT"` under case-insensitive exact comparison; any other reply —
including a verdict followed by explanatory text — yields `is_correct =
false`. -/
theorem C3_judge_verdict :
    ∀ (chatFn : String → String → String → ℚ → ChatResultR)
      (question expected_answer actual_answer : String),
      (EvalJudge.judge_answer chatFn question expected_answer actual_answer).is_correct =
        ci_matches_CORRECT (pyStrip (chatFn JUDGE_SYSTEM_PROMPT
          (judge_user_message question expected_answer actual_answer)
          JUDGE_MODEL 0).answer) := by
  intro chatFn question expected_answer actual_answer
  unfold EvalJudge.judge_answer
  rcases h : ci_matches_CORRECT (pyStrip (chatFn JUDGE_SYSTEM_PROMPT
      (judge_user_message question expected_answer actual_answer)
      JUDGE_MODEL 0).answer) with _ | _
  · simp only [h]
    rw [Bool.eq_false_iff]
    intro hup
    rw [beq_iff_eq, pyUpper_eq_CORRECT_iff] at hup
    rw [hup] at h
    cases h
  · simp only [h]
    rw [beq_iff_eq, pyUpper_eq_CORRECT_iff]
    exact h

/-- C3 witness: the spec's scenario — the reply `"INCORRECT\nbecause..."` is
fail-closed to an incorrect verdict. -/
theorem C3_judge_verdict_witness :
    (EvalJudge.judge_answer
        (fun _ _ _ _ => ⟨"INCORRECT\nbecause...", 7, 5, 12, 0, "anthropic/claude-opus-4-20250514"⟩)
        "q" "e" "a").is_correct = false := by
  rw [C3_judge_verdict]
  rfl

/-- C5 is falsified as stated: a request whose `model` field is present but
equal to the empty string takes the default-client branch — the response
exists and both `usage` and `model` are null even though the field is
present. -/
theorem C5_counterexample :
    RAGService.answer (α := Unit) (fun _ _ _ _ => []) (fun l => l) (fun _ => [])
        (fun _ _ => "ans") (fun _ _ _ => ⟨"router-ans", 1, 2, 3, 0, "m"⟩)
        ⟨"q", none, none, 8, some ""⟩ =
      .ok ⟨"ans", [], [], none, none⟩ ∧
    (⟨"q", none, none, 8, some ""⟩ : ChatRequest).model ≠ none :=
  ⟨rfl, by simp⟩

/-- C5 (amended): if the request's `model` is `None` or the empty string, the
default single-provider client is used and the response's `usage` and `model`
are both null; if `model` is a non-empty string that `get_model_id` resolves,
the multi-provider client is invoked with the resolved id and the response's
`usage` is populated from that client's token counts and cost (and `model`
from its reported model); if resolution fails, the `ValueError`
propagates. -/
theorem C5_usage_asymmetry :
    ∀ (α : Type) (retrieve : String → Int → Option (List String) → Option String → List (Chunk × ℚ))
      (rerank_by_distance : List (Chunk × ℚ) → List (Chunk × ℚ))
      (build_citations : List Chunk → List α)
      (openai_chat : String → String → String)
      (openrouter_chat : String → String → String → ChatResultR)
      (request : ChatRequest),
      ((request.model = none ∨ request.model = some "") →
        ∃ resp, RAGService.answer retrieve rerank_by_distance build_citations
            openai_chat openrouter_chat request = .ok resp ∧
          resp.usage = none ∧ resp.model = none) ∧
      (∀ m model_id, request.model = some m → m ≠ "" →
        get_model_id m = .ok model_id →
        ∃ resp, RAGService.answer retrieve rerank_by_distance build_citations
            openai_chat openrouter_chat request = .ok resp ∧
          resp.usage = some
            ⟨(openrouter_chat (rag_system_prompt retrieve rerank_by_distance request)
                request.question model_id).input_tokens,
             (openrouter_chat (rag_system_prompt retrieve rerank_by_distance request)
                request.question model_id).output_tokens,
             (openrouter_chat (rag_system_prompt retrieve rerank_by_distance request)
                request.question model_id).total_tokens,
             (openrouter_chat (rag_system_prompt retrieve rerank_by_distance request)
                request.question model_id).cost⟩ ∧
          resp.model = some
            (openrouter_chat (rag_system_prompt retrieve rerank_by_distance request)
                request.question model_id).model) ∧
      (∀ m e, request.model = some m → m ≠ "" →
        get_model_id m = .error e →
        RAGService.answer retrieve rerank_by_distance build_citations
          openai_chat openrouter_chat request = .error e) := by
  intro α retrieve rerank_by_distance build_citations openai_chat openrouter_chat request
  refine ⟨?_, ?_, ?_⟩
  · rintro (hm | hm) <;>
      · simp only [RAGService.answer, hm, beq_self_eq_true, if_true]
        exact ⟨_, rfl, rfl, rfl⟩
  · intro m model_id hm hne hid
    simp only [RAGService.answer, hm, hid, beq_iff_eq, if_neg hne]
    exact ⟨_, rfl, rfl, rfl⟩
  · intro m e hm hne hid
    simp only [RAGService.answer, hm, hid, beq_iff_eq, if_neg hne]

/-- C5 witness: a request with the `gpt-4o` alias gets usage populated from
the OpenRouter client's counts and cost. -/
theorem C5_usage_asymmetry_witness :
    ∃ resp, RAGService.answer (α := Unit) (fun _ _ _ _ => []) (fun l => l)
        (fun _ => []) (fun _ _ => "ans")
        (fun _ _ _ => ⟨"router-ans", 11, 22, 33, 0.5, "openai/gpt-4o"⟩)
        ⟨"q", none, none, 8, some "gpt-4o"⟩ = .ok resp ∧
      resp.usage = some ⟨11, 22, 33, 0.5⟩ ∧ resp.model = some "openai/gpt-4o" := by
  rcases (C5_usage_asymmetry Unit (fun _ _ _ _ => []) (fun l => l)
      (fun _ => []) (fun _ _ => "ans")
      (fun _ _ _ => ⟨"router-ans", 11, 22, 33, 0.5, "openai/gpt-4o"⟩)
      ⟨"q", none, none, 8, some "gpt-4o"⟩).2.1 "gpt-4o" "openai/gpt-4o"
      rfl (by simp) rfl with ⟨resp, h1, h2, h3⟩
  exact ⟨resp, h1, h2, h3⟩

/-- The summary update never touches the accuracy field (it is only written in
the finalisation pass). -/
lemma summaryStep_accuracy (s : ModelSummary) (o : Except String PairSuccess) :
    (summaryStep s o).accuracy = s.accuracy := by
  cases o <;> rfl

/-- `updateAList` with an accuracy-preserving update keeps the all-zero
accuracy invariant. -/
lemma updateAList_accuracy_zero (key : String) (f : ModelSummary → ModelSummary)
    (hf : ∀ s, (f s).accuracy = s.accuracy) :
    ∀ (m : List (String × ModelSummary)),
      (∀ kv ∈ m, kv.2.accuracy = 0) →
      ∀ kv ∈ updateAList m key f, kv.2.accuracy = 0 := by
  intro m
  induction m with
  | nil => intro _ kv hkv; cases hkv
  | cons a t ih =>
      intro h kv hkv
      rw [updateAList] at hkv
      by_cases hk : (a.1 == key) = true
      · rw [if_pos hk] at hkv
        rcases List.mem_cons.mp hkv with rfl | hmem
        · rw [hf]
          exact h _ (List.mem_cons_self _ _)
        · exact h kv (List.mem_cons_of_mem a hmem)
      · rw [if_neg hk] at hkv
        rcases List.mem_cons.mp hkv with rfl | hmem
        · exact h _ (List.mem_cons_self _ _)
        · exact ih (fun kv2 hkv2 => h kv2 (List.mem_cons_of_mem a hkv2)) kv hmem

/-- A fold preserves any invariant its step preserves. -/
lemma foldl_preserve {α β : Type} (P : α → Prop) (f : α → β → α)
    (hf : ∀ st b, P st → P (f st b)) :
    ∀ (l : List β) (st : α), P st → P (l.foldl f st) := by
  intro l
  induction l with
  | nil => intro st h; exact h
  | cons b t ih => intro st h; exact ih _ (hf st b h)

/-- Every summary in the freshly initialised dict has accuracy zero. -/
lemma initSummaries_accuracy_zero (models : List String) :
    ∀ kv ∈ initSummaries models, kv.2.accuracy = 0 := by
  unfold initSummaries
  have : ∀ (l : List String) (acc : List (String × ModelSummary)),
      (∀ kv ∈ acc, kv.2.accuracy = 0) →
      ∀ kv ∈ l.foldl (fun acc m =>
        if acc.any (fun kv => kv.1 == m) then acc
        else acc ++ [(m, ModelSummary.init m)]) acc, kv.2.accuracy = 0 := by
    intro l
    induction l with
    | nil => intro acc h; exact h
    | cons m t ih =>
        intro acc h
        apply ih
        intro kv hkv
        simp only at hkv
        by_cases hc : (acc.any (fun kv => kv.1 == m)) = true
        · rw [if_pos hc] at hkv
          exact h kv hkv
        · rw [if_neg hc] at hkv
          rcases List.mem_append.mp hkv with hmem | hmem
          · exact h kv hmem
          · rcases List.mem_singleton.mp hmem with rfl
            rfl
  exact this models [] (by intro kv hkv; cases hkv)

/-- One evaluation step appends exactly the pair's row. -/
lemma evalStep_foldl_rows (oracle : EvalQuestion → String → Except String PairSuccess)
    (q : EvalQuestion) :
    ∀ (ms : List String) (st : EvalState),
      (ms.foldl (evalStep oracle q) st).rows = st.rows ++ ms.map (pairRow oracle q) := by
  intro ms
  induction ms with
  | nil => intro st; simp
  | cons m t ih =>
      intro st
      simp only [List.foldl_cons, List.map_cons]
      rw [ih]
      simp [evalStep]

/-- One evaluation step appends exactly the pair's log lines. -/
lemma evalStep_foldl_logs (oracle : EvalQuestion → String → Except String PairSuccess)
    (q : EvalQuestion) :
    ∀ (ms : List String) (st : EvalState),
      (ms.foldl (evalStep oracle q) st).logs = st.logs ++ ms.flatMap (pairLogs oracle q) := by
  intro ms
  induction ms with
  | nil => intro st; simp
  | cons m t ih =>
      intro st
      simp only [List.foldl_cons, List.flatMap_cons]
      rw [ih]
      simp [evalStep]

/-- The nested loop appends one row per (question, model) pair, in order. -/
lemma run_foldl_rows (oracle : EvalQuestion → String → Except String PairSuccess)
    (models : List String) :
    ∀ (questions : List EvalQuestion) (st : EvalState),
      (questions.foldl (fun st q => models.foldl (evalStep oracle q) st) st).rows =
        st.rows ++ questions.flatMap (fun q => models.map (pairRow oracle q)) := by
  intro questions
  induction questions with
  | nil => intro st; simp
  | cons q t ih =>
      intro st
      simp only [List.foldl_cons, List.flatMap_cons]
      rw [ih, evalStep_foldl_rows]
      simp

/-- The nested loop prints exactly the failing pairs' log lines, in order. -/
lemma run_foldl_logs (oracle : EvalQuestion → String → Except String PairSuccess)
    (models : List String) :
    ∀ (questions : List EvalQuestion) (st : EvalState),
      (questions.foldl (fun st q => models.foldl (evalStep oracle q) st) st).logs =
        st.logs ++ questions.flatMap (fun q => models.flatMap (pairLogs oracle q)) := by
  intro questions
  induction questions with
  | nil => intro st; simp
  | cons q t ih =>
      intro st
      simp only [List.foldl_cons, List.flatMap_cons]
      rw [ih, evalStep_foldl_logs]
      simp

/-- C2: `run_evaluation` records exactly one `ModelResult` row per
(question, model) pair — Q×M rows in loop order — even when some pairs raise:
a raising pair's row has `is_correct = False`, zero input/output tokens and
zero cost (with the error message in `actual_answer`), the failure's message
is printed, and the remaining pairs are still processed. -/
theorem C2_partial_failure_isolation :
    ∀ (oracle : EvalQuestion → String → Except String PairSuccess)
      (timestamp : String) (questions : List EvalQuestion) (models : List String),
      ((run_evaluation questions models oracle timestamp).1.results =
        questions.flatMap (fun q => models.map (pairRow oracle q))) ∧
      ((run_evaluation questions models oracle timestamp).1.results.length =
        questions.length * models.length) ∧
      (∀ q m e, oracle q m = .error e →
        pairRow oracle q m =
          { model := m, question := q.question, expected_answer := q.expected_answer,
            actual_answer := "ERROR: " ++ e, is_correct := false,
            input_tokens := 0, output_tokens := 0, cost := 0,
            judge_input_tokens := 0, judge_output_tokens := 0, judge_cost := 0 }) ∧
      (∀ q ∈ questions, ∀ m ∈ models, ∀ e, oracle q m = .error e →
        ("Error: " ++ e) ∈ (run_evaluation questions models oracle timestamp).2) := by
  intro oracle timestamp questions models
  have hrows : (run_evaluation questions models oracle timestamp).1.results =
      questions.flatMap (fun q => models.map (pairRow oracle q)) := by
    unfold run_evaluation
    simp only
    rw [run_foldl_rows]
    simp
  have hlen : ∀ (qs : List EvalQuestion),
      (qs.flatMap (fun q => models.map (pairRow oracle q))).length =
        qs.length * models.length := by
    intro qs
    induction qs with
    | nil => simp
    | cons q t ih =>
        simp only [List.flatMap_cons, List.length_append, List.length_map, ih,
          List.length_cons]
        rw [Nat.succ_mul]
        omega
  refine ⟨hrows, ?_, ?_, ?_⟩
  · rw [hrows, hlen]
  · intro q m e he
    unfold pairRow
    rw [he]
  · intro q hq m hm e he
    have hlogs : (run_evaluation questions models oracle timestamp).2 =
        questions.flatMap (fun q => models.flatMap (pairLogs oracle q)) := by
      unfold run_evaluation
      simp only
      rw [run_foldl_logs]
      simp
    rw [hlogs]
    rw [List.mem_flatMap]
    refine ⟨q, hq, ?_⟩
    rw [List.mem_flatMap]
    refine ⟨m, hm, ?_⟩
    unfold pairLogs
    rw [he]
    simp

/-- C2 witness: one question against two models, the second failing — two
rows in total, the failing one recorded fail-closed and its message
printed. -/
theorem C2_partial_failure_isolation_witness :
    ((run_evaluation [⟨"q1", "a1", [], ""⟩] ["m1", "m2"]
        (fun _ m => if m == "m1"
          then .ok ⟨"ans", 1, 2, 0.5, ⟨true, "q1", "a1", "ans", 3, 4, 0.25⟩⟩
          else .error "boom") "ts").1.results.length = 1 * 2) ∧
    ("Error: boom" ∈ (run_evaluation [⟨"q1", "a1", [], ""⟩] ["m1", "m2"]
        (fun _ m => if m == "m1"
          then .ok ⟨"ans", 1, 2, 0.5, ⟨true, "q1", "a1", "ans", 3, 4, 0.25⟩⟩
          else .error "boom") "ts").2) := by
  have h := C2_partial_failure_isolation
    (fun _ m => if m == "m1"
      then .ok ⟨"ans", 1, 2, 0.5, ⟨true, "q1", "a1", "ans", 3, 4, 0.25⟩⟩
      else .error "boom") "ts" [⟨"q1", "a1", [], ""⟩] ["m1", "m2"]
  refine ⟨?_, ?_⟩
  · have := h.2.1
    simpa using this
  · exact h.2.2.2 ⟨"q1", "a1", [], ""⟩ (by simp) "m2" (by simp) "boom" rfl

/-- The loop state's summaries all have accuracy zero until finalisation. -/
lemma run_foldl_accuracy_zero
    (oracle : EvalQuestion → String → Except String PairSuccess)
    (models : List String) (questions : List EvalQuestion) :
    ∀ kv ∈ (questions.foldl (fun st q => models.foldl (evalStep oracle q) st)
        ⟨[], initSummaries models, []⟩ : EvalState).summaries,
      kv.2.accuracy = 0 := by
  have hstep : ∀ (q : EvalQuestion) (st : EvalState) (m : String),
      (∀ kv ∈ st.summaries, kv.2.accuracy = 0) →
      ∀ kv ∈ (evalStep oracle q st m).summaries, kv.2.accuracy = 0 := by
    intro q st m h
    exact updateAList_accuracy_zero m _ (fun s => summaryStep_accuracy s _) _ h
  have hinner : ∀ (q : EvalQuestion) (st : EvalState),
      (∀ kv ∈ st.summaries, kv.2.accuracy = 0) →
      ∀ kv ∈ (models.foldl (evalStep oracle q) st).summaries, kv.2.accuracy = 0 :=
    fun q => foldl_preserve (fun st => ∀ kv ∈ st.summaries, kv.2.accuracy = 0)
      (evalStep oracle q) (hstep q) models
  exact foldl_preserve (fun st => ∀ kv ∈ st.summaries, kv.2.accuracy = 0)
    (fun st q => models.foldl (evalStep oracle q) st)
    (fun st q h => hinner q st h) questions ⟨[], initSummaries models, []⟩
    (initSummaries_accuracy_zero models)

/-- C7: every `ModelSummary` produced by `run_evaluation` has
`accuracy = correct / total_questions` when `total_questions > 0`, and
`accuracy = 0.0` when `total_questions = 0`. -/
theorem C7_summary_accuracy :
    ∀ (oracle : EvalQuestion → String → Except String PairSuccess)
      (timestamp : String) (questions : List EvalQuestion) (models : List String)
      (s : ModelSummary),
      s ∈ (run_evaluation questions models oracle timestamp).1.summaries →
      (s.total_questions = 0 → s.accuracy = 0) ∧
      (0 < s.total_questions →
        s.accuracy = (s.correct : ℚ) / (s.total_questions : ℚ)) := by
  intro oracle timestamp questions models s hs
  unfold run_evaluation at hs
  simp only [List.mem_map] at hs
  rcases hs with ⟨kv, hkv, rfl⟩
  have hacc : kv.2.accuracy = 0 := run_foldl_accuracy_zero oracle models questions kv hkv
  by_cases ht : kv.2.total_questions > 0
  · rw [if_pos ht]
    constructor
    · intro h0
      simp at h0
      omega
    · intro _
      rfl
  · rw [if_neg ht]
    constructor
    · intro _
      exact hacc
    · intro hpos
      omega

/-- C7 witness: a run with one question and one failing model has the summary
`total_questions = 1`, `correct = 0`, and its accuracy is `correct /
total_questions`; the theorem instantiated at that summary. -/
theorem C7_summary_accuracy_witness :
    (⟨"m1", 1, 0, ((0 : ℕ) : ℚ) / ((1 : ℕ) : ℚ), 0, 0, 0, 0, 0, 0⟩ : ModelSummary).accuracy =
      (((⟨"m1", 1, 0, ((0 : ℕ) : ℚ) / ((1 : ℕ) : ℚ), 0, 0, 0, 0, 0, 0⟩ : ModelSummary).correct : ℚ) /
        ((⟨"m1", 1, 0, ((0 : ℕ) : ℚ) / ((1 : ℕ) : ℚ), 0, 0, 0, 0, 0, 0⟩ : ModelSummary).total_questions : ℚ)) :=
  (C7_summary_accuracy (fun _ _ => .error "boom") "ts" [⟨"q1", "a1", [], ""⟩] ["m1"]
      ⟨"m1", 1, 0, ((0 : ℕ) : ℚ) / ((1 : ℕ) : ℚ), 0, 0, 0, 0, 0, 0⟩
      (List.Mem.head _)).2 (by decide)
